import Mathlib

/-!
Verification of the browser-pool crawler (`src/cases/drissionpage_case/main.py`
and `src/demos/drissionpage_demo/main.py`) against its design document.

The development shallowly embeds the concurrency core of the repository:
the port allocator `get_port_list`, the pool operations `acquire_browser` /
`return_browser` (as a labelled transition system), the per-address lock
helpers `browser_lock` (cases) and `key_lock` (demo) (as interleaved
two-worker transition systems), the batching dispatcher `crawl_many`, the
worker `crawl_one` (as an event trace), and the retrying image downloader
`download_img` (fuel-indexed).
-/

namespace SnippetSushi

/-! ## Port allocator: `DPCrawler.get_port_list`

The source scans `range(20000, 30000)` in ascending order, appends each port
for which a probe bind succeeds, and breaks as soon as the accumulated list
reaches `pool_size`.  The bindability probe `is_port_available` is an
external effect; it is a parameter `avail` of the embedding. -/

def port_area : Nat × Nat := (20000, 30000)

/-- The ascending list of candidate ports `range(port_area[0], port_area[1])`. -/
def candidate_ports : List Nat :=
  (List.range (port_area.2 - port_area.1)).map (fun i => port_area.1 + i)

/-- The `for port in range(...)` loop body of `get_port_list`: append an
available port to the accumulator, break once `pool_size` ports are held. -/
def get_port_list_go (avail : Nat → Bool) (pool_size : Nat) :
    List Nat → List Nat → List Nat
  | acc, [] => acc
  | acc, p :: ps =>
    if avail p then
      let acc2 := acc ++ [p]
      if pool_size ≤ acc2.length then acc2
      else get_port_list_go avail pool_size acc2 ps
    else get_port_list_go avail pool_size acc ps

/-- `DPCrawler.get_port_list(pool_size)`: returns the accumulated list, with
no error raised on exhaustion of the range. -/
def get_port_list (avail : Nat → Bool) (pool_size : Nat) : List Nat :=
  get_port_list_go avail pool_size [] candidate_ports

/-! ## Dispatcher: `DPCrawler.crawl_many`

The dispatcher state consists of `pool_size` and the instance field
`self.results` (the submitted-but-undrained outcome futures, identified here
by their task ids).  `self.results_max_cnt = self.pool_size * 2`. -/

structure DPCrawlerState where
  pool_size : Nat
  results : List Nat
deriving DecidableEq, Repr

/-- `self.results_max_cnt` as set in `__init__`. -/
def results_max_cnt (s : DPCrawlerState) : Nat := s.pool_size * 2

/-- One iteration of the `for task in task_list` loop of `crawl_many`:
append the submitted future; if `len(self.results) >= self.results_max_cnt`,
wait for all accumulated futures (`as_completed`), count each, and clear.
Returns the new state and the number drained in this iteration. -/
def crawl_many_step (s : DPCrawlerState) (task : Nat) : DPCrawlerState × Nat :=
  if results_max_cnt s ≤ (s.results ++ [task]).length then
    ({ s with results := [] }, (s.results ++ [task]).length)
  else
    ({ s with results := s.results ++ [task] }, 0)

/-- The full submission loop, accumulating the drained count `cnt`. -/
def crawl_many_loop (s : DPCrawlerState) (cnt : Nat) :
    List Nat → DPCrawlerState × Nat
  | [] => (s, cnt)
  | t :: ts =>
    let p := crawl_many_step s t
    crawl_many_loop p.1 (cnt + p.2) ts

/-- `DPCrawler.crawl_many(task_list)`: runs the loop from `cnt = 0` and
returns the final crawler state together with the reported completion count
(the `cnt` interpolated into the returned message string).  There is no
statement after the loop that drains or clears `self.results`. -/
def crawl_many (s : DPCrawlerState) (task_list : List Nat) :
    DPCrawlerState × Nat :=
  crawl_many_loop s 0 task_list

/-- The largest number of submitted-but-undrained futures observed at any
point of the loop, including the instant just after each `append` and before
the barrier check of the same iteration. -/
def crawl_many_peak (s : DPCrawlerState) : List Nat → Nat
  | [] => s.results.length
  | t :: ts =>
    max (s.results.length + 1) (crawl_many_peak (crawl_many_step s t).1 ts)

/-! ## Resource pool: `acquire_browser` / `return_browser`

The pool is `self.browser_queue`, a FIFO `Queue` of browsers (identified
here by their unique port/address, a `Nat`).  `acquire_browser` busy-polls
until the queue is non-empty and then dequeues the front atomically
(`Queue.get`); `return_browser` enqueues the browser at the back
(`Queue.put`).  Concurrent callers are modelled by a labelled transition
system over the pool state; a caller id tags each checkout. -/

structure PoolState where
  available : List Nat
  held : List (Nat × Nat)
deriving DecidableEq, Repr

/-- Drop the first checkout record equal to `p`. -/
def remove_checkout : List (Nat × Nat) → Nat × Nat → List (Nat × Nat)
  | [], _ => []
  | e :: es, p => if e = p then es else e :: remove_checkout es p

/-- The two pool operations, as a step relation.  `acquire` is enabled only
when the queue is non-empty (the busy-wait in `acquire_browser` suspends the
caller otherwise) and dequeues the front element; `release` is enabled for a
caller currently holding the browser (the design assumes well-behaved
callers: one `return_browser` per prior `acquire_browser`) and enqueues it
at the back. -/
inductive PoolStep : PoolState → PoolState → Prop
  | acquire (c r : Nat) (rest : List Nat) (s : PoolState)
      (h : s.available = r :: rest) :
      PoolStep s ⟨rest, (c, r) :: s.held⟩
  | release (c r : Nat) (s : PoolState) (h : (c, r) ∈ s.held) :
      PoolStep s ⟨s.available ++ [r], remove_checkout s.held (c, r)⟩

/-- States reachable from a freshly initialized pool holding the browsers
`pool0` (one per allocated port, all available, nothing checked out). -/
inductive PoolReachable (pool0 : List Nat) : PoolState → Prop
  | refl : PoolReachable pool0 ⟨pool0, []⟩
  | step {s s2 : PoolState} : PoolReachable pool0 s → PoolStep s s2 →
      PoolReachable pool0 s2

/-- All browsers currently known to the pool, in either conceptual
location. -/
def pool_contents (s : PoolState) : List Nat :=
  s.available ++ s.held.map Prod.snd

/-! ## Worker: `DPCrawler.crawl_one`

`crawl_one(task)` acquires a browser, enters the `browser_lock(browser)`
context manager, runs `self.rule(browser, task)` inside a `try` whose
`except Exception` branch logs the error, then calls
`self.return_browser(browser)` as the last statement of the `with` block.
The caller-supplied task body `rule` is a parameter returning
`Except String Unit` (a raised exception is an `error`).  The execution is
embedded as the sequence of observable events it performs; a browser is
identified with its address. -/

inductive CrawlEvent
  | acquireBrowser (b : Nat)
  | lockAcquire (addr : Nat)
  | ruleOk
  | errorLogged (e : String)
  | returnBrowser (b : Nat)
  | lockRelease (addr : Nat)
deriving DecidableEq, Repr

/-- The `browser_lock` context manager: holds the mutex for the browser's
address around the body, releasing on every exit path of the body. -/
def browser_lock_events (addr : Nat) (body : List CrawlEvent) :
    List CrawlEvent :=
  CrawlEvent.lockAcquire addr :: body ++ [CrawlEvent.lockRelease addr]

/-- The body of the `with self.browser_lock(browser)` block: `try` the rule
(logging a raised error), then `self.return_browser(browser)`. -/
def crawl_one_body (rule : Nat → Nat → Except String Unit)
    (browser task : Nat) : List CrawlEvent :=
  (match rule browser task with
   | Except.ok _ => [CrawlEvent.ruleOk]
   | Except.error e => [CrawlEvent.errorLogged e])
  ++ [CrawlEvent.returnBrowser browser]

/-- `DPCrawler.crawl_one(task)` as its event trace. -/
def crawl_one (rule : Nat → Nat → Except String Unit)
    (browser task : Nat) : List CrawlEvent :=
  CrawlEvent.acquireBrowser browser
    :: browser_lock_events browser (crawl_one_body rule browser task)

/-- Pool-and-lock view of a trace: which browsers sit in the queue and
which per-address mutexes are held, after consuming a list of events. -/
structure ObsState where
  queued : List Nat
  locksHeld : List Nat
deriving DecidableEq, Repr

def obs_step (s : ObsState) : CrawlEvent → ObsState
  | CrawlEvent.acquireBrowser b => { s with queued := s.queued.erase b }
  | CrawlEvent.lockAcquire a => { s with locksHeld := a :: s.locksHeld }
  | CrawlEvent.returnBrowser b => { s with queued := s.queued ++ [b] }
  | CrawlEvent.lockRelease a => { s with locksHeld := s.locksHeld.erase a }
  | _ => s

def obs_run (s : ObsState) (es : List CrawlEvent) : ObsState :=
  es.foldl obs_step s

/-! ## Image downloader: `Crawler.download_img`

`download_img(url, path)` issues one request (`attempt`), writes the file
when the status is 200, and otherwise — on any non-200 status or any raised
exception — calls itself again with the same arguments and no attempt
counter.  The embedding indexes attempts by `k` and bounds the recursion
depth by an explicit `fuel`: `none` means the given depth was exhausted
without the function ever returning. -/

def download_img (attempt : Nat → Except String Nat) :
    Nat → Nat → Option Unit
  | 0, _ => none
  | fuel + 1, k =>
    match attempt k with
    | Except.ok code =>
      if code = 200 then some ()
      else download_img attempt fuel (k + 1)
    | Except.error _ => download_img attempt fuel (k + 1)

/-! ## Lock registries: `browser_lock` (cases) and `key_lock` (demo)

Two workers concurrently enter the registry for the same previously-unseen
address.  Each worker runs a small program whose atomic micro-steps are the
individual Python dict/lock operations; a schedule (a list of worker ids)
interleaves them.  Mutex objects are numbered by creation order (`created`
counts `threading.Lock()` constructions); the body increments a shared
counter non-atomically (separate read and write steps), the observable for
lost updates.

`browser_lock` (src/cases) program counters:
0 membership test `addr not in BROWSER_LOCK`; 1 conditional
`BROWSER_LOCK[addr] = threading.Lock()`; 2 `lock = BROWSER_LOCK[addr]`;
3 acquire `lock` (blocks while held); 4 body read of the counter;
5 body write of the counter; 6 release `lock`; 7 done.
The membership test and the insertion are separate unguarded steps.

`key_lock` (src/demos) program counters:
0 acquire `_dict_lock` (blocks while held); 1 membership test;
2 conditional insertion; 3 release `_dict_lock`; 4 `lock = _lock_dict[key]`;
5 acquire `lock`; 6 body read; 7 body write; 8 release `lock`; 9 done. -/

structure LockWorker where
  pc : Nat
  found : Bool
  myLock : Nat
  tmp : Nat
deriving DecidableEq, Repr

structure BLShared where
  reg : Option Nat
  created : Nat
  held : List Nat
  cnt : Nat
deriving DecidableEq, Repr

structure BLConfig where
  w0 : LockWorker
  w1 : LockWorker
  g : BLShared
deriving DecidableEq, Repr

def bl_micro (w : LockWorker) (g : BLShared) : LockWorker × BLShared :=
  if w.pc = 0 then ({ w with pc := 1, found := g.reg.isSome }, g)
  else if w.pc = 1 then
    if w.found then ({ w with pc := 2 }, g)
    else
      ({ w with pc := 2 },
       { g with reg := some g.created, created := g.created + 1 })
  else if w.pc = 2 then ({ w with pc := 3, myLock := g.reg.getD 0 }, g)
  else if w.pc = 3 then
    if w.myLock ∈ g.held then (w, g)
    else ({ w with pc := 4 }, { g with held := w.myLock :: g.held })
  else if w.pc = 4 then ({ w with pc := 5, tmp := g.cnt }, g)
  else if w.pc = 5 then ({ w with pc := 6 }, { g with cnt := w.tmp + 1 })
  else if w.pc = 6 then
    ({ w with pc := 7 }, { g with held := g.held.erase w.myLock })
  else (w, g)

def bl_step (c : BLConfig) (who : Bool) : BLConfig :=
  cond who
    (⟨c.w0, (bl_micro c.w1 c.g).1, (bl_micro c.w1 c.g).2⟩ : BLConfig)
    ⟨(bl_micro c.w0 c.g).1, c.w1, (bl_micro c.w0 c.g).2⟩

def bl_run (c : BLConfig) (sched : List Bool) : BLConfig :=
  sched.foldl bl_step c

/-- Both workers before their first access of a previously-unseen address:
empty registry, no mutex created, counter zero. -/
def bl_init : BLConfig := ⟨⟨0, false, 0, 0⟩, ⟨0, false, 0, 0⟩, ⟨none, 0, [], 0⟩⟩

structure KLShared where
  reg : Option Nat
  created : Nat
  dictHeldBy : Option Bool
  held : List Nat
  cnt : Nat
deriving DecidableEq, Repr

structure KLConfig where
  w0 : LockWorker
  w1 : LockWorker
  g : KLShared
deriving DecidableEq, Repr

def kl_micro (who : Bool) (w : LockWorker) (g : KLShared) :
    LockWorker × KLShared :=
  if w.pc = 0 then
    if g.dictHeldBy = none then
      ({ w with pc := 1 }, { g with dictHeldBy := some who })
    else (w, g)
  else if w.pc = 1 then ({ w with pc := 2, found := g.reg.isSome }, g)
  else if w.pc = 2 then
    if w.found then ({ w with pc := 3 }, g)
    else
      ({ w with pc := 3 },
       { g with reg := some g.created, created := g.created + 1 })
  else if w.pc = 3 then ({ w with pc := 4 }, { g with dictHeldBy := none })
  else if w.pc = 4 then ({ w with pc := 5, myLock := g.reg.getD 0 }, g)
  else if w.pc = 5 then
    if w.myLock ∈ g.held then (w, g)
    else ({ w with pc := 6 }, { g with held := w.myLock :: g.held })
  else if w.pc = 6 then ({ w with pc := 7, tmp := g.cnt }, g)
  else if w.pc = 7 then ({ w with pc := 8 }, { g with cnt := w.tmp + 1 })
  else if w.pc = 8 then
    ({ w with pc := 9 }, { g with held := g.held.erase w.myLock })
  else (w, g)

def kl_step (c : KLConfig) (who : Bool) : KLConfig :=
  cond who
    (⟨c.w0, (kl_micro true c.w1 c.g).1, (kl_micro true c.w1 c.g).2⟩ : KLConfig)
    ⟨(kl_micro false c.w0 c.g).1, c.w1, (kl_micro false c.w0 c.g).2⟩

def kl_run (c : KLConfig) (sched : List Bool) : KLConfig :=
  sched.foldl kl_step c

def kl_init : KLConfig :=
  ⟨⟨0, false, 0, 0⟩, ⟨0, false, 0, 0⟩, ⟨none, 0, none, [], 0⟩⟩

/-- A worker is inside the `with lock:` body of `key_lock` (it holds the
target mutex and has not yet released it). -/
def kl_in_body (w : LockWorker) : Prop := 6 ≤ w.pc ∧ w.pc ≤ 8

/-- Shorthand constructor for a worker state. -/
def W (pc : Nat) (found : Bool) (myLock tmp : Nat) : LockWorker :=
  ⟨pc, found, myLock, tmp⟩

/-- Shorthand constructor for a `key_lock` system configuration. -/
def K (w0 w1 : LockWorker) (reg : Option Nat) (created : Nat)
    (dictHeldBy : Option Bool) (held : List Nat) (cnt : Nat) : KLConfig :=
  ⟨w0, w1, ⟨reg, created, dictHeldBy, held, cnt⟩⟩

/-- The full reachable state space of the two-worker `key_lock` system from
`kl_init` (111 configurations).  That it contains `kl_init` and is closed
under `kl_step` is proved below; no other property of this enumeration is
assumed. -/
def kl_states : List KLConfig := [
  (K (W 0 false 0 0) (W 0 false 0 0) (none) 0 (none) [] 0),
  (K (W 9 false 0 0) (W 9 true 0 1) (some 0) 1 (none) [] 2),
  (K (W 9 false 0 1) (W 9 true 0 0) (some 0) 1 (none) [] 2),
  (K (W 9 false 0 0) (W 8 true 0 1) (some 0) 1 (none) [0] 2),
  (K (W 8 false 0 1) (W 9 true 0 0) (some 0) 1 (none) [0] 2),
  (K (W 9 false 0 0) (W 7 true 0 1) (some 0) 1 (none) [0] 1),
  (K (W 7 false 0 1) (W 9 true 0 0) (some 0) 1 (none) [0] 1),
  (K (W 9 false 0 0) (W 6 true 0 0) (some 0) 1 (none) [0] 1),
  (K (W 6 false 0 0) (W 9 true 0 0) (some 0) 1 (none) [0] 1),
  (K (W 9 false 0 0) (W 5 true 0 0) (some 0) 1 (none) [] 1),
  (K (W 5 false 0 0) (W 9 true 0 0) (some 0) 1 (none) [] 1),
  (K (W 9 false 0 0) (W 4 true 0 0) (some 0) 1 (none) [] 1),
  (K (W 8 false 0 0) (W 5 true 0 0) (some 0) 1 (none) [0] 1),
  (K (W 5 false 0 0) (W 8 true 0 0) (some 0) 1 (none) [0] 1),
  (K (W 4 false 0 0) (W 9 true 0 0) (some 0) 1 (none) [] 1),
  (K (W 9 false 0 0) (W 3 true 0 0) (some 0) 1 (some true) [] 1),
  (K (W 8 false 0 0) (W 4 true 0 0) (some 0) 1 (none) [0] 1),
  (K (W 7 false 0 0) (W 5 true 0 0) (some 0) 1 (none) [0] 0),
  (K (W 5 false 0 0) (W 7 true 0 0) (some 0) 1 (none) [0] 0),
  (K (W 4 false 0 0) (W 8 true 0 0) (some 0) 1 (none) [0] 1),
  (K (W 9 false 0 0) (W 2 true 0 0) (some 0) 1 (some true) [] 1),
  (K (W 8 false 0 0) (W 3 true 0 0) (some 0) 1 (some true) [0] 1),
  (K (W 7 false 0 0) (W 4 true 0 0) (some 0) 1 (none) [0] 0),
  (K (W 6 false 0 0) (W 5 true 0 0) (some 0) 1 (none) [0] 0),
  (K (W 5 false 0 0) (W 6 true 0 0) (some 0) 1 (none) [0] 0),
  (K (W 4 false 0 0) (W 7 true 0 0) (some 0) 1 (none) [0] 0),
  (K (W 9 false 0 0) (W 1 false 0 0) (some 0) 1 (some true) [] 1),
  (K (W 8 false 0 0) (W 2 true 0 0) (some 0) 1 (some true) [0] 1),
  (K (W 7 false 0 0) (W 3 true 0 0) (some 0) 1 (some true) [0] 0),
  (K (W 6 false 0 0) (W 4 true 0 0) (some 0) 1 (none) [0] 0),
  (K (W 5 false 0 0) (W 5 true 0 0) (some 0) 1 (none) [] 0),
  (K (W 4 false 0 0) (W 6 true 0 0) (some 0) 1 (none) [0] 0),
  (K (W 9 false 0 0) (W 0 false 0 0) (some 0) 1 (none) [] 1),
  (K (W 8 false 0 0) (W 1 false 0 0) (some 0) 1 (some true) [0] 1),
  (K (W 7 false 0 0) (W 2 true 0 0) (some 0) 1 (some true) [0] 0),
  (K (W 6 false 0 0) (W 3 true 0 0) (some 0) 1 (some true) [0] 0),
  (K (W 5 false 0 0) (W 4 true 0 0) (some 0) 1 (none) [] 0),
  (K (W 4 false 0 0) (W 5 true 0 0) (some 0) 1 (none) [] 0),
  (K (W 8 false 0 0) (W 0 false 0 0) (some 0) 1 (none) [0] 1),
  (K (W 7 false 0 0) (W 1 false 0 0) (some 0) 1 (some true) [0] 0),
  (K (W 6 false 0 0) (W 2 true 0 0) (some 0) 1 (some true) [0] 0),
  (K (W 5 false 0 0) (W 3 true 0 0) (some 0) 1 (some true) [] 0),
  (K (W 4 false 0 0) (W 4 true 0 0) (some 0) 1 (none) [] 0),
  (K (W 7 false 0 0) (W 0 false 0 0) (some 0) 1 (none) [0] 0),
  (K (W 6 false 0 0) (W 1 false 0 0) (some 0) 1 (some true) [0] 0),
  (K (W 5 false 0 0) (W 2 true 0 0) (some 0) 1 (some true) [] 0),
  (K (W 4 false 0 0) (W 3 true 0 0) (some 0) 1 (some true) [] 0),
  (K (W 6 false 0 0) (W 0 false 0 0) (some 0) 1 (none) [0] 0),
  (K (W 5 false 0 0) (W 1 false 0 0) (some 0) 1 (some true) [] 0),
  (K (W 4 false 0 0) (W 2 true 0 0) (some 0) 1 (some true) [] 0),
  (K (W 5 false 0 0) (W 0 false 0 0) (some 0) 1 (none) [] 0),
  (K (W 4 false 0 0) (W 1 false 0 0) (some 0) 1 (some true) [] 0),
  (K (W 4 false 0 0) (W 0 false 0 0) (some 0) 1 (none) [] 0),
  (K (W 3 false 0 0) (W 0 false 0 0) (some 0) 1 (some false) [] 0),
  (K (W 2 false 0 0) (W 0 false 0 0) (none) 0 (some false) [] 0),
  (K (W 1 false 0 0) (W 0 false 0 0) (none) 0 (some false) [] 0),
  (K (W 0 false 0 0) (W 1 false 0 0) (none) 0 (some true) [] 0),
  (K (W 0 false 0 0) (W 2 false 0 0) (none) 0 (some true) [] 0),
  (K (W 0 false 0 0) (W 3 false 0 0) (some 0) 1 (some true) [] 0),
  (K (W 0 false 0 0) (W 4 false 0 0) (some 0) 1 (none) [] 0),
  (K (W 1 false 0 0) (W 4 false 0 0) (some 0) 1 (some false) [] 0),
  (K (W 0 false 0 0) (W 5 false 0 0) (some 0) 1 (none) [] 0),
  (K (W 2 true 0 0) (W 4 false 0 0) (some 0) 1 (some false) [] 0),
  (K (W 1 false 0 0) (W 5 false 0 0) (some 0) 1 (some false) [] 0),
  (K (W 0 false 0 0) (W 6 false 0 0) (some 0) 1 (none) [0] 0),
  (K (W 3 true 0 0) (W 4 false 0 0) (some 0) 1 (some false) [] 0),
  (K (W 2 true 0 0) (W 5 false 0 0) (some 0) 1 (some false) [] 0),
  (K (W 1 false 0 0) (W 6 false 0 0) (some 0) 1 (some false) [0] 0),
  (K (W 0 false 0 0) (W 7 false 0 0) (some 0) 1 (none) [0] 0),
  (K (W 4 true 0 0) (W 4 false 0 0) (some 0) 1 (none) [] 0),
  (K (W 3 true 0 0) (W 5 false 0 0) (some 0) 1 (some false) [] 0),
  (K (W 2 true 0 0) (W 6 false 0 0) (some 0) 1 (some false) [0] 0),
  (K (W 1 false 0 0) (W 7 false 0 0) (some 0) 1 (some false) [0] 0),
  (K (W 0 false 0 0) (W 8 false 0 0) (some 0) 1 (none) [0] 1),
  (K (W 5 true 0 0) (W 4 false 0 0) (some 0) 1 (none) [] 0),
  (K (W 4 true 0 0) (W 5 false 0 0) (some 0) 1 (none) [] 0),
  (K (W 3 true 0 0) (W 6 false 0 0) (some 0) 1 (some false) [0] 0),
  (K (W 2 true 0 0) (W 7 false 0 0) (some 0) 1 (some false) [0] 0),
  (K (W 1 false 0 0) (W 8 false 0 0) (some 0) 1 (some false) [0] 1),
  (K (W 6 true 0 0) (W 4 false 0 0) (some 0) 1 (none) [0] 0),
  (K (W 5 true 0 0) (W 5 false 0 0) (some 0) 1 (none) [] 0),
  (K (W 4 true 0 0) (W 6 false 0 0) (some 0) 1 (none) [0] 0),
  (K (W 3 true 0 0) (W 7 false 0 0) (some 0) 1 (some false) [0] 0),
  (K (W 2 true 0 0) (W 8 false 0 0) (some 0) 1 (some false) [0] 1),
  (K (W 7 true 0 0) (W 4 false 0 0) (some 0) 1 (none) [0] 0),
  (K (W 4 true 0 0) (W 7 false 0 0) (some 0) 1 (none) [0] 0),
  (K (W 3 true 0 0) (W 8 false 0 0) (some 0) 1 (some false) [0] 1),
  (K (W 8 true 0 0) (W 4 false 0 0) (some 0) 1 (none) [0] 1),
  (K (W 4 true 0 0) (W 8 false 0 0) (some 0) 1 (none) [0] 1),
  (K (W 9 true 0 0) (W 4 false 0 0) (some 0) 1 (none) [] 1),
  (K (W 9 true 0 0) (W 9 false 0 1) (some 0) 1 (none) [] 2),
  (K (W 9 true 0 0) (W 8 false 0 1) (some 0) 1 (none) [0] 2),
  (K (W 9 true 0 0) (W 7 false 0 1) (some 0) 1 (none) [0] 1),
  (K (W 9 true 0 0) (W 6 false 0 0) (some 0) 1 (none) [0] 1),
  (K (W 9 true 0 0) (W 5 false 0 0) (some 0) 1 (none) [] 1),
  (K (W 8 true 0 0) (W 5 false 0 0) (some 0) 1 (none) [0] 1),
  (K (W 7 true 0 0) (W 5 false 0 0) (some 0) 1 (none) [0] 0),
  (K (W 6 true 0 0) (W 5 false 0 0) (some 0) 1 (none) [0] 0),
  (K (W 5 true 0 0) (W 6 false 0 0) (some 0) 1 (none) [0] 0),
  (K (W 5 true 0 0) (W 7 false 0 0) (some 0) 1 (none) [0] 0),
  (K (W 5 true 0 0) (W 8 false 0 0) (some 0) 1 (none) [0] 1),
  (K (W 9 true 0 1) (W 9 false 0 0) (some 0) 1 (none) [] 2),
  (K (W 8 true 0 1) (W 9 false 0 0) (some 0) 1 (none) [0] 2),
  (K (W 7 true 0 1) (W 9 false 0 0) (some 0) 1 (none) [0] 1),
  (K (W 6 true 0 0) (W 9 false 0 0) (some 0) 1 (none) [0] 1),
  (K (W 5 true 0 0) (W 9 false 0 0) (some 0) 1 (none) [] 1),
  (K (W 4 true 0 0) (W 9 false 0 0) (some 0) 1 (none) [] 1),
  (K (W 3 true 0 0) (W 9 false 0 0) (some 0) 1 (some false) [] 1),
  (K (W 2 true 0 0) (W 9 false 0 0) (some 0) 1 (some false) [] 1),
  (K (W 1 false 0 0) (W 9 false 0 0) (some 0) 1 (some false) [] 1),
  (K (W 0 false 0 0) (W 9 false 0 0) (some 0) 1 (none) [] 1)]

/-! ### Dispatcher lemmas -/

theorem crawl_many_step_pool_size (s : DPCrawlerState) (t : Nat) :
    (crawl_many_step s t).1.pool_size = s.pool_size := by
  unfold crawl_many_step
  split <;> rfl

theorem crawl_many_step_conservation (s : DPCrawlerState) (t : Nat) :
    (crawl_many_step s t).2 + (crawl_many_step s t).1.results.length
      = s.results.length + 1 := by
  unfold crawl_many_step
  split <;> simp

theorem crawl_many_step_len_lt (s : DPCrawlerState) (t : Nat)
    (hN : 1 ≤ s.pool_size) (_hlen : s.results.length < results_max_cnt s) :
    (crawl_many_step s t).1.results.length < results_max_cnt s := by
  unfold crawl_many_step
  split
  · simpa [results_max_cnt] using by omega
  · rename_i h
    simp only [List.length_append, List.length_cons, List.length_nil] at h ⊢
    omega

theorem crawl_many_loop_conservation (ts : List Nat) :
    ∀ (s : DPCrawlerState) (cnt : Nat),
      (crawl_many_loop s cnt ts).2 + (crawl_many_loop s cnt ts).1.results.length
        = cnt + s.results.length + ts.length := by
  induction ts with
  | nil => intro s cnt; simp [crawl_many_loop]
  | cons t ts ih =>
    intro s cnt
    have hstep := crawl_many_step_conservation s t
    simp only [crawl_many_loop, List.length_cons]
    rw [ih]
    omega

theorem crawl_many_loop_len_lt (ts : List Nat) :
    ∀ (s : DPCrawlerState) (cnt : Nat), 1 ≤ s.pool_size →
      s.results.length < results_max_cnt s →
      (crawl_many_loop s cnt ts).1.results.length
          < results_max_cnt (crawl_many_loop s cnt ts).1
        ∧ (crawl_many_loop s cnt ts).1.pool_size = s.pool_size := by
  induction ts with
  | nil => intro s cnt _ hlen; exact ⟨hlen, rfl⟩
  | cons t ts ih =>
    intro s cnt hN hlen
    simp only [crawl_many_loop]
    have hps := crawl_many_step_pool_size s t
    have hlt := crawl_many_step_len_lt s t hN hlen
    have h1 : 1 ≤ (crawl_many_step s t).1.pool_size := by rw [hps]; exact hN
    have h2 : (crawl_many_step s t).1.results.length
        < results_max_cnt (crawl_many_step s t).1 := by
      simpa [results_max_cnt, hps] using hlt
    obtain ⟨ha, hb⟩ := ih (crawl_many_step s t).1 (cnt + (crawl_many_step s t).2) h1 h2
    exact ⟨ha, by rw [hb, hps]⟩

theorem crawl_many_peak_le (ts : List Nat) :
    ∀ (s : DPCrawlerState), 1 ≤ s.pool_size →
      s.results.length < results_max_cnt s →
      crawl_many_peak s ts ≤ results_max_cnt s := by
  induction ts with
  | nil =>
    intro s _ hlen
    exact Nat.le_of_lt hlen
  | cons t ts ih =>
    intro s hN hlen
    simp only [crawl_many_peak]
    have hps := crawl_many_step_pool_size s t
    have hlt := crawl_many_step_len_lt s t hN hlen
    have h1 : 1 ≤ (crawl_many_step s t).1.pool_size := by rw [hps]; exact hN
    have h2 : (crawl_many_step s t).1.results.length
        < results_max_cnt (crawl_many_step s t).1 := by
      simpa [results_max_cnt, hps] using hlt
    have hrec := ih (crawl_many_step s t).1 h1 h2
    have hrec2 : crawl_many_peak (crawl_many_step s t).1 ts ≤ results_max_cnt s := by
      simpa [results_max_cnt, hps] using hrec
    exact max_le (by omega) hrec2

/-! ### Port allocator lemmas -/

theorem filter_const_false (l : List Nat) :
    l.filter (fun _ => false) = [] := by
  induction l with
  | nil => rfl
  | cons p ps ih => simp [List.filter, ih]

theorem get_port_list_go_filter (avail : Nat → Bool) (n : Nat) :
    ∀ (ports acc : List Nat), acc.length < n →
      get_port_list_go avail n acc ports
        = acc ++ (ports.filter avail).take (n - acc.length) := by
  intro ports
  induction ports with
  | nil => intro acc _; simp [get_port_list_go]
  | cons p ps ih =>
    intro acc hacc
    by_cases hp : avail p
    · simp only [get_port_list_go, hp, if_true, List.length_append,
        List.length_cons, List.length_nil]
      by_cases hfull : n ≤ acc.length + (0 + 1)
      · have hn : n - acc.length = 1 := by omega
        simp [hfull, List.filter_cons, hp, hn]
      · have hlt : (acc ++ [p]).length < n := by
          simp only [List.length_append, List.length_cons, List.length_nil]
          omega
        have := ih (acc ++ [p]) hlt
        simp only [hfull, if_false, this, List.filter_cons, hp]
        have hn : n - acc.length = (n - (acc ++ [p]).length) + 1 := by
          simp only [List.length_append, List.length_cons, List.length_nil]
          omega
        simp [hn, List.take_succ_cons, List.append_assoc]
    · simp only [get_port_list_go, hp, if_false, List.filter_cons]
      have := ih acc hacc
      simp [this, hp]

theorem get_port_list_eq_take (avail : Nat → Bool) (N : Nat) (hN : 1 ≤ N) :
    get_port_list avail N = (candidate_ports.filter avail).take N := by
  have := get_port_list_go_filter avail N candidate_ports [] (by simpa using hN)
  simpa [get_port_list] using this

/-! ## Claim theorems: dispatcher and port allocator -/

/-- C1 counterexample: with `poolSize = 2` and the five tasks
`[1,2,3,4,5]`, `crawl_many` reports a completion count of 4, not 5 (the
total number of input tasks), and leaves the fifth future undrained in
`self.results` — there is no final drain barrier. -/
theorem crawl_many_missing_final_drain :
    (crawl_many ⟨2, []⟩ [1, 2, 3, 4, 5]).2 = 4
    ∧ (crawl_many ⟨2, []⟩ [1, 2, 3, 4, 5]).2 ≠ 5
    ∧ (crawl_many ⟨2, []⟩ [1, 2, 3, 4, 5]).1.results ≠ [] := by
  decide

/-- C1 (amended): `crawl_many` performs no final drain after the input is
exhausted.  The returned completion count equals the number of futures
counted at the periodic `2×poolSize` barriers, i.e. the total number of
input tasks minus the ones left undrained in `self.results`; the undrained
remainder is always fewer than `2×poolSize` (so with poolSize 2 and 5 tasks
the reported count is 4, not 5). -/
theorem crawl_many_count_conservation (N : Nat) (ts : List Nat) (hN : 1 ≤ N) :
    (crawl_many ⟨N, []⟩ ts).2 + (crawl_many ⟨N, []⟩ ts).1.results.length
        = ts.length
    ∧ (crawl_many ⟨N, []⟩ ts).1.results.length < 2 * N := by
  constructor
  · have := crawl_many_loop_conservation ts ⟨N, []⟩ 0
    simpa [crawl_many] using this
  · have hlen : (⟨N, []⟩ : DPCrawlerState).results.length
        < results_max_cnt ⟨N, []⟩ := by
      simp [results_max_cnt]; omega
    obtain ⟨ha, hb⟩ := crawl_many_loop_len_lt ts ⟨N, []⟩ 0 hN hlen
    have : results_max_cnt (crawl_many_loop ⟨N, []⟩ 0 ts).1 = N * 2 := by
      simp [results_max_cnt, hb]
    simp only [crawl_many]
    omega

/-- Witness for the amended C1 theorem at `poolSize = 2`,
tasks `[1,2,3,4,5]`. -/
theorem crawl_many_count_conservation_witness :
    (crawl_many ⟨2, []⟩ [1, 2, 3, 4, 5]).2
        + (crawl_many ⟨2, []⟩ [1, 2, 3, 4, 5]).1.results.length
        = [1, 2, 3, 4, 5].length
    ∧ (crawl_many ⟨2, []⟩ [1, 2, 3, 4, 5]).1.results.length < 2 * 2 :=
  crawl_many_count_conservation 2 [1, 2, 3, 4, 5] (by decide)

/-- C6: throughout any run of `crawl_many` (starting from a state whose
accumulator holds fewer than `2×poolSize` futures, as `__init__` and every
barrier guarantee), the number of submitted-but-undrained futures never
exceeds `2×poolSize`; and at the instant the accumulator reaches exactly
`2×poolSize`, the iteration waits on all accumulated futures, counts each of
them (`2×poolSize` many), and clears the accumulator. -/
theorem crawl_many_barrier_bound (N : Nat) (s : DPCrawlerState) (ts : List Nat)
    (s2 : DPCrawlerState) (t : Nat) (hN : 1 ≤ N) (hs : s.pool_size = N)
    (hlen : s.results.length < 2 * N) (hs2 : s2.pool_size = N)
    (hlen2 : s2.results.length + 1 = 2 * N) :
    crawl_many_peak s ts ≤ 2 * N
    ∧ crawl_many_step s2 t = ({ s2 with results := [] }, 2 * N) := by
  constructor
  · have h1 : 1 ≤ s.pool_size := by omega
    have h2 : s.results.length < results_max_cnt s := by
      simp [results_max_cnt, hs]; omega
    have := crawl_many_peak_le ts s h1 h2
    simp only [results_max_cnt, hs] at this
    omega
  · have hm : results_max_cnt s2 = 2 * N := by
      rw [results_max_cnt, hs2, Nat.mul_comm]
    have hl : (s2.results ++ [t]).length = 2 * N := by simp; omega
    have hc : results_max_cnt s2 ≤ (s2.results ++ [t]).length := by
      rw [hm, hl]
    simp [crawl_many_step, hc, hl]
    omega

/-- Witness for C6 at `poolSize = 2`: a fresh run over five tasks peaks at
4 undrained futures, and a step from a 3-element accumulator drains 4 and
clears. -/
theorem crawl_many_barrier_bound_witness :
    crawl_many_peak ⟨2, []⟩ [1, 2, 3, 4, 5] ≤ 2 * 2
    ∧ crawl_many_step ⟨2, [10, 11, 12]⟩ 13
        = (⟨2, []⟩, 2 * 2) :=
  crawl_many_barrier_bound 2 ⟨2, []⟩ [1, 2, 3, 4, 5] ⟨2, [10, 11, 12]⟩ 13
    (by decide) rfl (by decide) rfl (by decide)

/-- C10: `crawl_many` never drains or clears the accumulator at the end of
the input.  In general, every submitted future not counted at a barrier
remains in `self.results` when the call returns, and a subsequent
`crawl_many` on the same crawler counts those leftovers toward its own
barrier threshold and completion count.  Concretely, with poolSize 2 the
run over `[1,2,3,4,5]` returns count 4 leaving future `5` stored, and a
following run over only three tasks `[6,7,8]` reports count 4: the leftover
future `5` triggered its barrier and was counted by it. -/
theorem crawl_many_leftover_persists (s : DPCrawlerState) (ts ts2 : List Nat) :
    (crawl_many s ts).2 + (crawl_many s ts).1.results.length
        = s.results.length + ts.length
    ∧ (crawl_many (crawl_many s ts).1 ts2).2
        + (crawl_many (crawl_many s ts).1 ts2).1.results.length
        = (crawl_many s ts).1.results.length + ts2.length
    ∧ crawl_many ⟨2, []⟩ [1, 2, 3, 4, 5] = (⟨2, [5]⟩, 4)
    ∧ crawl_many ⟨2, [5]⟩ [6, 7, 8] = (⟨2, []⟩, 4) := by
  refine ⟨?_, ?_, by decide, by decide⟩
  · simpa [crawl_many] using crawl_many_loop_conservation ts s 0
  · simpa [crawl_many] using
      crawl_many_loop_conservation ts2 (crawl_many s ts).1 0

/-- C3 counterexample: with no bindable port in the scanned range and a
requested pool size of 1, `get_port_list` returns the empty list — a list
of fewer than `pool_size` ports — and raises nothing (its only exit is the
plain `return available_ports`; no `InsufficientPortsError` exists anywhere
in the source). -/
theorem get_port_list_returns_short_list :
    get_port_list (fun _ => false) 1 = []
    ∧ (get_port_list (fun _ => false) 1).length < 1 := by
  have h := get_port_list_eq_take (fun _ => false) 1 (Nat.le_refl 1)
  rw [filter_const_false] at h
  simp [h]

/-- C3 (amended): when fewer than `N` ports in the range are bindable,
`get_port_list` does not fail: it returns exactly the bindable ports it
found — a list shorter than `N` — with no error of any kind. -/
theorem get_port_list_scarce (avail : Nat → Bool) (N : Nat) (hN : 1 ≤ N)
    (hscarce : (candidate_ports.filter avail).length < N) :
    get_port_list avail N = candidate_ports.filter avail
    ∧ (get_port_list avail N).length < N := by
  have h := get_port_list_eq_take avail N hN
  have htake : (candidate_ports.filter avail).take N
      = candidate_ports.filter avail :=
    List.take_of_length_le (Nat.le_of_lt hscarce)
  rw [h, htake]
  exact ⟨rfl, hscarce⟩

/-- Witness for the amended C3 theorem: no port bindable, pool size 1. -/
theorem get_port_list_scarce_witness :
    get_port_list (fun _ => false) 1
        = candidate_ports.filter (fun _ => false)
    ∧ (get_port_list (fun _ => false) 1).length < 1 :=
  get_port_list_scarce (fun _ => false) 1 (Nat.le_refl 1)
    (by rw [filter_const_false]; decide)

/-! ### Pool lemmas -/

theorem perm_cons_remove_checkout (p : Nat × Nat) :
    ∀ (l : List (Nat × Nat)), p ∈ l → l.Perm (p :: remove_checkout l p) := by
  intro l
  induction l with
  | nil => intro h; cases h
  | cons e es ih =>
    intro hmem
    by_cases he : e = p
    · subst he
      simp [remove_checkout]
    · have hp : p ∈ es := by
        cases hmem with
        | head => exact absurd rfl he
        | tail _ h => exact h
      have := (ih hp).cons e
      simp only [remove_checkout, he, if_false]
      exact this.trans (List.Perm.swap p e _)

theorem pool_contents_perm (pool0 : List Nat) (s : PoolState)
    (h : PoolReachable pool0 s) : (pool_contents s).Perm pool0 := by
  induction h with
  | refl => simp [pool_contents]
  | step hr hstep ih =>
    rename_i s3 s4
    refine List.Perm.trans ?_ ih
    cases hstep with
    | acquire c r rest s5 h =>
      simp only [pool_contents, List.map_cons, h]
      exact List.perm_middle
    | release c r s5 h =>
      simp only [pool_contents, List.append_assoc, List.singleton_append]
      have hh : s3.held.Perm ((c, r) :: remove_checkout s3.held (c, r)) :=
        perm_cons_remove_checkout (c, r) s3.held h
      have hm := hh.map Prod.snd
      simp only [List.map_cons] at hm
      exact List.Perm.append_left s3.available hm.symm

theorem pool_contents_nodup (pool0 : List Nat) (s : PoolState)
    (hnd : pool0.Nodup) (h : PoolReachable pool0 s) :
    (pool_contents s).Nodup :=
  (pool_contents_perm pool0 s h).nodup_iff.mpr hnd

/-! ## Claim theorems: resource pool -/

/-- C2: for any pool initialized with distinct browsers and any sequence of
concurrent acquire/release operations, `acquire_browser` never hands the
same browser to two callers at once: two checkout records for the same
browser in a reachable state belong to the same caller. -/
theorem acquire_browser_exclusive (pool0 : List Nat) (s : PoolState)
    (c c2 r : Nat) (hnd : pool0.Nodup) (hreach : PoolReachable pool0 s)
    (h1 : (c, r) ∈ s.held) (h2 : (c2, r) ∈ s.held) : c = c2 := by
  have hnodup := pool_contents_nodup pool0 s hnd hreach
  have hmap : (s.held.map Prod.snd).Nodup :=
    List.Nodup.of_append_right hnodup
  have := List.inj_on_of_nodup_map hmap h1 h2 rfl
  exact congrArg Prod.fst this

/-- Witness for C2: pool `[20001, 20002]`, caller 7 acquires the front
browser `20001`; any two checkout records of `20001` name caller 7. -/
theorem acquire_browser_exclusive_witness : (7 : Nat) = 7 :=
  acquire_browser_exclusive [20001, 20002] ⟨[20002], [(7, 20001)]⟩ 7 7 20001
    (by decide)
    (PoolReachable.step PoolReachable.refl
      (PoolStep.acquire 7 20001 [20002] ⟨[20001, 20002], []⟩ rfl))
    (by decide) (by decide)

/-- C5: conservation.  In every state reachable by matched
`acquire_browser` / `return_browser` operations from a pool of `N` distinct
browsers — including states where every browser is checked out and the
queue is empty — `|available| + |checked-out| = N`, and no browser sits in
both conceptual locations: a browser found in the queue has no outstanding
checkout record. -/
theorem pool_conservation (pool0 : List Nat) (s : PoolState) (c r : Nat)
    (hnd : pool0.Nodup) (hreach : PoolReachable pool0 s) :
    s.available.length + s.held.length = pool0.length
    ∧ (r ∈ s.available → (c, r) ∉ s.held) := by
  have hperm := pool_contents_perm pool0 s hreach
  constructor
  · have hlen := hperm.length_eq
    simp only [pool_contents, List.length_append, List.length_map] at hlen
    exact hlen
  · intro hr hmem
    have hnodup := pool_contents_nodup pool0 s hnd hreach
    have hdisj := List.disjoint_of_nodup_append hnodup
    exact hdisj hr (List.mem_map_of_mem Prod.snd hmem)

/-- Witness for C5 at an all-checked-out observation point: pool `[20001]`
after caller 7 acquired the only browser.  The queue is empty, yet
`0 + 1 = 1` holds, and the vacuous no-double-location conjunct is
exercised at the instantiated arguments. -/
theorem pool_conservation_witness :
    ([] : List Nat).length + ([(7, 20001)] : List (Nat × Nat)).length
        = ([20001] : List Nat).length
    ∧ ((20001 : Nat) ∈ ([] : List Nat) →
        ((7 : Nat), (20001 : Nat)) ∉ ([(7, 20001)] : List (Nat × Nat))) := by
  have h := pool_conservation [20001] ⟨[], [(7, 20001)]⟩ 7 20001
    (by decide)
    (PoolReachable.step PoolReachable.refl
      (PoolStep.acquire 7 20001 [] ⟨[20001], []⟩ rfl))
  exact h

/-! ## Claim theorems: worker and downloader -/

/-- C4: the worker survives any outcome of the task body.  For every
`rule`, `crawl_one` performs `return_browser` on its browser exactly once
— on the success path and on the path where the body raised — and an
error `e` raised by the body is captured and logged (an `errorLogged e`
event appears precisely when `rule` raised `e`), never propagated: the
trace is always produced in full. -/
theorem crawl_one_releases_once (rule : Nat → Nat → Except String Unit)
    (browser task : Nat) (e : String) :
    (crawl_one rule browser task).count (CrawlEvent.returnBrowser browser)
        = 1
    ∧ (CrawlEvent.errorLogged e ∈ crawl_one rule browser task
        ↔ rule browser task = Except.error e)
    ∧ (CrawlEvent.ruleOk ∈ crawl_one rule browser task
        ↔ rule browser task = Except.ok ()) := by
  unfold crawl_one browser_lock_events crawl_one_body
  cases hr : rule browser task with
  | ok u =>
    cases u
    simp [List.count_cons, List.count_append]
  | error e2 =>
    simp [List.count_cons, List.count_append, eq_comm]

/-- C9: `return_browser` runs inside the `browser_lock` context: on every
path the trace ends with the `returnBrowser` event immediately followed by
the `lockRelease` of the browser's address, and at the instant just after
`returnBrowser` the browser is back in the queue — visible to the next
`acquire_browser` caller — while its per-address mutex is still held. -/
theorem return_browser_inside_lock (rule : Nat → Nat → Except String Unit)
    (browser task : Nat) :
    ∃ pre : List CrawlEvent,
      crawl_one rule browser task
        = pre ++ [CrawlEvent.returnBrowser browser,
            CrawlEvent.lockRelease browser]
      ∧ (obs_run ⟨[browser], []⟩
            (pre ++ [CrawlEvent.returnBrowser browser])).queued = [browser]
      ∧ browser ∈ (obs_run ⟨[browser], []⟩
            (pre ++ [CrawlEvent.returnBrowser browser])).locksHeld := by
  cases hr : rule browser task with
  | ok u =>
    cases u
    refine ⟨[CrawlEvent.acquireBrowser browser,
      CrawlEvent.lockAcquire browser, CrawlEvent.ruleOk], ?_, ?_, ?_⟩
    · simp [crawl_one, browser_lock_events, crawl_one_body, hr]
    · simp [obs_run, obs_step]
    · simp [obs_run, obs_step]
  | error e =>
    refine ⟨[CrawlEvent.acquireBrowser browser,
      CrawlEvent.lockAcquire browser, CrawlEvent.errorLogged e], ?_, ?_, ?_⟩
    · simp [crawl_one, browser_lock_events, crawl_one_body, hr]
    · simp [obs_run, obs_step]
    · simp [obs_run, obs_step]

/-- C8: `download_img` retries by plain self-recursion on every non-200
status and on every raised exception, with no attempt bound: if no attempt
ever yields status 200, then for every recursion-depth budget `fuel` the
function exhausts it without returning — it never terminates and its
recursion depth is unbounded. -/
theorem download_img_unbounded_retry (attempt : Nat → Except String Nat)
    (fuel k : Nat) (hfail : ∀ j, attempt j ≠ Except.ok 200) :
    download_img attempt fuel k = none := by
  induction fuel generalizing k with
  | zero => rfl
  | succ n ih =>
    unfold download_img
    cases ha : attempt k with
    | ok code =>
      have hc : ¬ code = 200 := by
        intro h
        exact hfail k (h ▸ ha)
      simp [hc, ih]
    | error e => simp [ih]

/-- Witness for C8: a server that always answers 404; at depth budget 5
starting from attempt 0 the downloader never returns. -/
theorem download_img_unbounded_retry_witness :
    download_img (fun _ => Except.ok 404) 5 0 = none :=
  download_img_unbounded_retry (fun _ => Except.ok 404) 5 0
    (fun j => by intro h; cases h)

/-! ### Lock registry lemmas -/

instance kl_in_body_decidable (w : LockWorker) : Decidable (kl_in_body w) :=
  inferInstanceAs (Decidable (6 ≤ w.pc ∧ w.pc ≤ 8))

set_option maxRecDepth 4096 in
theorem kl_states_closed :
    ∀ c ∈ kl_states,
      kl_step c false ∈ kl_states ∧ kl_step c true ∈ kl_states := by
  decide

theorem kl_states_props :
    ∀ c ∈ kl_states,
      c.g.created ≤ 1
      ∧ (¬ c.w0.pc = 9 ∨ ¬ c.w1.pc = 9 ∨ (c.g.created = 1 ∧ c.g.cnt = 2))
      ∧ ¬ (kl_in_body c.w0 ∧ kl_in_body c.w1) := by
  decide

theorem kl_run_mem (sched : List Bool) : kl_run kl_init sched ∈ kl_states := by
  have h : ∀ (l : List Bool) (c : KLConfig), c ∈ kl_states →
      List.foldl kl_step c l ∈ kl_states := by
    intro l
    induction l with
    | nil => intro c hc; simpa using hc
    | cons b bs ih =>
      intro c hc
      have hstep := kl_states_closed c hc
      cases b with
      | false => exact ih _ hstep.1
      | true => exact ih _ hstep.2
  exact h sched kl_init (by decide)

/-! ## Claim theorems: lock registries -/

/-- C7 counterexample: `browser_lock` (cases) performs an unguarded
check-then-insert on `BROWSER_LOCK`.  Under the explicit 14-step
interleaving below, in which both workers pass the membership test before
either inserts, two distinct mutex objects are created for the same
previously-unseen address, both workers sit inside the locked body at the
same time holding different mutexes (after the 10-step prefix), and the
shared counter ends at 1 after two increments — a lost update.  This
falsifies the claim as stated for `browser_lock`. -/
theorem browser_lock_duplicate_mutex :
    (bl_run bl_init [false, true, false, false, false, false,
        true, true, true, true, false, false, true, true]).g.created = 2
    ∧ (bl_run bl_init [false, true, false, false, false, false,
        true, true, true, true, false, false, true, true]).g.cnt = 1
    ∧ (bl_run bl_init [false, true, false, false, false, false,
        true, true, true, true, false, false, true, true]).w0.pc = 7
    ∧ (bl_run bl_init [false, true, false, false, false, false,
        true, true, true, true, false, false, true, true]).w1.pc = 7
    ∧ (bl_run bl_init [false, true, false, false, false, false,
        true, true, true, true]).w0.pc = 5
    ∧ (bl_run bl_init [false, true, false, false, false, false,
        true, true, true, true]).w1.pc = 5
    ∧ (bl_run bl_init [false, true, false, false, false, false,
        true, true, true, true]).w0.myLock
      ≠ (bl_run bl_init [false, true, false, false, false, false,
        true, true, true, true]).w1.myLock := by
  decide

/-- C7 (amended): `key_lock` (demo) guards the membership test and the
insertion with `_dict_lock`, so when two workers concurrently enter the
registry for the same previously-unseen key, under every interleaving at
most one mutex object is ever created; when both workers finish, exactly
one mutex was created and registered, the two bodies were strictly
serialized (at no point are both workers inside the locked body), and the
non-atomically incremented shared counter shows no lost update (final value
2).  The unguarded `browser_lock` does not have this property. -/
theorem key_lock_single_mutex (sched : List Bool) :
    (kl_run kl_init sched).g.created ≤ 1
    ∧ ((kl_run kl_init sched).w0.pc = 9 → (kl_run kl_init sched).w1.pc = 9 →
        (kl_run kl_init sched).g.created = 1
        ∧ (kl_run kl_init sched).g.cnt = 2)
    ∧ ¬ (kl_in_body (kl_run kl_init sched).w0
        ∧ kl_in_body (kl_run kl_init sched).w1) := by
  obtain ⟨h1, h2, h3⟩ := kl_states_props _ (kl_run_mem sched)
  refine ⟨h1, ?_, h3⟩
  intro ha hb
  rcases h2 with h | h | h
  · exact absurd ha h
  · exact absurd hb h
  · exact h

/-- Witness for the amended C7 theorem: the serial schedule in which worker
0 runs to completion and then worker 1 does; both finish, one mutex was
created, and the counter reads 2. -/
theorem key_lock_single_mutex_witness :
    (kl_run kl_init [false, false, false, false, false, false, false,
        false, false, false, true, true, true, true, true, true, true,
        true, true, true]).g.created = 1
    ∧ (kl_run kl_init [false, false, false, false, false, false, false,
        false, false, false, true, true, true, true, true, true, true,
        true, true, true]).g.cnt = 2 :=
  (key_lock_single_mutex [false, false, false, false, false, false, false,
      false, false, false, true, true, true, true, true, true, true,
      true, true, true]).2.1 (by decide) (by decide)

end SnippetSushi
